import Mathlib

/-!
Shallow embedding of the Feedback Collection Platform backend
(Express + Mongoose). The definitions below are translated from:

* `routes/responses.js` — the public submission route `POST /api/responses`
  (express-validator body rules, form-active check, answer-count check,
  required-question check, multiple-choice option check, duplicate-response
  check, answer normalization, save) and the admin summary route
  `GET /api/responses/form/:formId/summary`;
* `models/Form.js` — the form schema and the `pre('save')` hook that
  assigns `publicUrl` once;
* `models/Response.js` — the response schema (stored answer snapshots,
  lowercased/trimmed `submitterEmail`);
* `routes/forms.js` — form creation and the `PUT /api/forms/:id` update path.

Mongo documents are modelled as Lean structures; ObjectIds are strings; the
document store is an explicit list passed to each operation.  Fallible request
handling is modelled by an explicit result type.  Request-format checks that no
claim depends on (the `isEmail`/`normalizeEmail` format validation of the
optional `submitterEmail`) are not modelled; the structural body rules
(`answers` a non-empty array, Mongo-id fields, `notEmpty` answer values,
name length) are.
-/

namespace Feedback

/-- Question type (`questionSchema.type`, enum `["text", "multiple-choice"]`). -/
inductive QType where
  | text
  | multipleChoice
deriving DecidableEq

/-- Embedded question document (`questionSchema` in `models/Form.js`). -/
structure Question where
  id : String
  text : String
  qtype : QType
  options : List String
  required : Bool
  order : Nat
deriving DecidableEq

/-- `formSchema.settings` in `models/Form.js`. -/
structure Settings where
  allowMultipleResponses : Bool
  requireEmail : Bool
  theme : String
deriving DecidableEq

/-- Form document (`formSchema` in `models/Form.js`).  `publicUrl` starts out
absent and is filled in by the pre-save hook. -/
structure Form where
  id : String
  title : String
  description : String
  creator : String
  questions : List Question
  isActive : Bool
  publicUrl : Option String
  settings : Settings
deriving DecidableEq

/-- A raw `{questionId, answer}` pair from the request body. -/
structure RawAnswer where
  questionId : String
  answer : String
deriving DecidableEq

/-- Stored answer snapshot (`answerSchema` in `models/Response.js`). -/
structure StoredAnswer where
  questionId : String
  questionText : String
  questionType : QType
  answer : String
deriving DecidableEq

/-- Response document (`responseSchema` in `models/Response.js`).
`submittedAt`/`createdAt` timestamps are not modelled. -/
structure ResponseRecord where
  form : String
  answers : List StoredAnswer
  submitterEmail : Option String
  submitterName : Option String
  ipAddress : String
  userAgent : String
deriving DecidableEq

/-- The request-derived inputs of `POST /api/responses`: the parsed body
fields plus `req.ip` and the `User-Agent` header. -/
structure Request where
  formId : String
  answers : List RawAnswer
  submitterEmail : Option String
  submitterName : Option String
  ip : String
  userAgent : String
deriving DecidableEq

/-- Outcome of the `POST /api/responses` handler.  `validationErrors` is the
generic 400 produced when the express-validator body rules fail;
`serverError` is the 500 produced by the `catch` handler;
`accepted` carries the saved `ResponseRecord`. -/
inductive SubmitResult where
  | validationErrors
  | formUnavailable
  | answerCountMismatch
  | requiredUnanswered (questionText : String)
  | invalidOption (questionText : String)
  | duplicateSubmission
  | serverError
  | accepted (record : ResponseRecord)
deriving DecidableEq

/-- `isMongoId` of the validator library: 24 hexadecimal characters. -/
def isMongoId (s : String) : Bool :=
  s.length == 24 &&
    s.toList.all fun c =>
      c.isDigit || ('a' ≤ c && c ≤ 'f') || ('A' ≤ c && c ≤ 'F')

/-- The express-validator body rules of `POST /api/responses`:
`formId` a Mongo id, `answers` a non-empty array whose entries have Mongo-id
`questionId` and non-empty (`notEmpty`, which does not ignore whitespace)
`answer`, and `submitterName` at most 100 characters after trimming.
The `isEmail`/`normalizeEmail` rule on the optional `submitterEmail` is a
format check no claim depends on and is not modelled. -/
def bodyValid (req : Request) : Bool :=
  isMongoId req.formId &&
    decide (1 ≤ req.answers.length) &&
    (req.answers.all fun a => isMongoId a.questionId && a.answer != "") &&
    (match req.submitterName with
     | some n => decide (n.trim.length ≤ 100)
     | none => true)

/-- `submitterEmail || req.ip`: the lookup key of the duplicate-response
query (JavaScript `||` treats an absent value and `""` alike as falsy). -/
def emailKey (req : Request) : String :=
  match req.submitterEmail with
  | some e => if e == "" then req.ip else e
  | none => req.ip

/-- The `Response.findOne({ form: formId, submitterEmail: submitterEmail || req.ip })`
match predicate: the record's `form` field equals the submitted form id and
its `submitterEmail` field equals the lookup key. -/
def dupQuery (req : Request) (r : ResponseRecord) : Bool :=
  r.form == req.formId && r.submitterEmail == some (emailKey req)

/-- The required-question loop: the first question (in form order) that is
required and has no submitted answer with a matching `questionId`. -/
def findUnansweredRequired (form : Form) (answers : List RawAnswer) : Option Question :=
  form.questions.find? fun q =>
    q.required && (answers.find? fun a => a.questionId == q.id).isNone

/-- One step of the multiple-choice validation loop: the answer's matching
question (if any) is multiple-choice and does not list the answer value. -/
def badAnswer (form : Form) (a : RawAnswer) : Bool :=
  match form.questions.find? fun q => q.id == a.questionId with
  | some q => decide (q.qtype = QType.multipleChoice) && !(q.options.contains a.answer)
  | none => false

/-- The multiple-choice validation loop: the question (found again by id, as
the route does) of the first offending answer. -/
def findInvalidOption (form : Form) (answers : List RawAnswer) : Option Question :=
  (answers.find? (badAnswer form)).bind fun a =>
    form.questions.find? fun q => q.id == a.questionId

/-- The answer-normalization `map` of the accept path.  Each answer is paired
with the text/type snapshot of its question, found by id; when no question
matches, the route dereferences `undefined` (`question.text`), which throws,
so normalization as a whole produces no value. -/
def normalizeAnswers (form : Form) : List RawAnswer → Option (List StoredAnswer)
  | [] => some []
  | a :: rest =>
    match form.questions.find? fun q => q.id == a.questionId with
    | none => none
    | some q =>
      (normalizeAnswers form rest).map fun ns =>
        { questionId := a.questionId
          questionText := q.text
          questionType := q.qtype
          answer := a.answer } :: ns

/-- The `new Response({...})` document built on the accept path.  The schema
lowercases and trims `submitterEmail` and trims `submitterName` on save. -/
def mkRecord (req : Request) (ns : List StoredAnswer) : ResponseRecord :=
  { form := req.formId
    answers := ns
    submitterEmail := req.submitterEmail.map fun e => e.trim.toLower
    submitterName := req.submitterName.map fun n => n.trim
    ipAddress := req.ip
    userAgent := req.userAgent }

/-- The `POST /api/responses` handler over an explicit store:
`forms` is the Form collection, `prior` the Response collection.
Checks run in source order: body rules, form exists and is active, answer
count, required questions, multiple-choice options, duplicate response,
then normalization and save. -/
def submitResponse (forms : List Form) (prior : List ResponseRecord)
    (req : Request) : SubmitResult :=
  if bodyValid req then
    match forms.find? fun f => f.id == req.formId with
    | none => SubmitResult.formUnavailable
    | some form =>
      if form.isActive then
        if req.answers.length = form.questions.length then
          match findUnansweredRequired form req.answers with
          | some q => SubmitResult.requiredUnanswered q.text
          | none =>
            match findInvalidOption form req.answers with
            | some q => SubmitResult.invalidOption q.text
            | none =>
              if form.settings.allowMultipleResponses = false ∧
                  (prior.find? (dupQuery req)).isSome then
                SubmitResult.duplicateSubmission
              else
                match normalizeAnswers form req.answers with
                | none => SubmitResult.serverError
                | some ns => SubmitResult.accepted (mkRecord req ns)
        else SubmitResult.answerCountMismatch
      else SubmitResult.formUnavailable
  else SubmitResult.validationErrors

/-! ### Summary aggregation (`GET /api/responses/form/:formId/summary`) -/

/-- Per-question tally object.  A JavaScript object with string keys keeps
its keys in insertion order, so `questionSummary.answers` is modelled as an
insertion-ordered association list. -/
abbrev Tally := List (String × Nat)

/-- Property read `tally[k]`, with `0` for an absent key
(the `|| 0` of the accumulation). -/
def lookupN : Tally → String → Nat
  | [], _ => 0
  | p :: t, k => if p.1 == k then p.2 else lookupN t k

/-- Key-presence test `k in tally`. -/
def tallyHasKey : Tally → String → Bool
  | [], _ => false
  | p :: t, k => p.1 == k || tallyHasKey t k

/-- Sum of all tallied counts. -/
def tallySum : Tally → Nat
  | [] => 0
  | p :: t => p.2 + tallySum t

/-- Property write `tally[k] = (tally[k] || 0) + 1`: an existing key keeps
its position and is incremented; a new key is appended at the end. -/
def bump : Tally → String → Tally
  | [], k => [(k, 1)]
  | p :: t, k => if p.1 == k then (p.1, p.2 + 1) :: t else p :: bump t k

/-- `response.answers.find(a => a.questionId === question._id)`: the first
stored answer of a response matching the question. -/
def hit (q : Question) (r : ResponseRecord) : Option StoredAnswer :=
  r.answers.find? fun a => a.questionId == q.id

/-- The answer value a response contributes to a multiple-choice tally
(none for a text question or when the response has no matching answer). -/
def hitValue (q : Question) (r : ResponseRecord) : Option String :=
  if q.qtype = QType.multipleChoice then (hit q r).map (fun a => a.answer) else none

/-- One iteration of the inner loop of the summary route: if the response
has an answer for the question, increment `totalAnswers`, and for a
multiple-choice question also bump the tally at the answer value. -/
def tallyStep (q : Question) (acc : Nat × Tally) (r : ResponseRecord) : Nat × Tally :=
  match hit q r with
  | none => acc
  | some a =>
    (acc.1 + 1, if q.qtype = QType.multipleChoice then bump acc.2 a.answer else acc.2)

/-- One entry of `summary.questions`. -/
structure QSummary where
  questionId : String
  questionText : String
  questionType : QType
  totalAnswers : Nat
  answers : Tally
deriving DecidableEq

/-- The summary payload. -/
structure Summary where
  totalResponses : Nat
  questions : List QSummary
deriving DecidableEq

/-- The per-question analysis loop of the summary route. -/
def questionSummary (q : Question) (responses : List ResponseRecord) : QSummary :=
  let t := responses.foldl (tallyStep q) (0, [])
  { questionId := q.id
    questionText := q.text
    questionType := q.qtype
    totalAnswers := t.1
    answers := t.2 }

/-- The summary route over the already-loaded responses of the form:
`totalResponses` counts them, and `questions` holds one entry per form
question, in form order. -/
def summarize (form : Form) (responses : List ResponseRecord) : Summary :=
  { totalResponses := responses.length
    questions := form.questions.map fun q => questionSummary q responses }

/-! ### Form creation, saving and updating (`models/Form.js`, `routes/forms.js`) -/

/-- JavaScript falsiness of `this.publicUrl`: absent or the empty string. -/
def slugUnset : Option String → Bool
  | none => true
  | some s => s == ""

/-- The slug built by the pre-save hook:
`form-${Date.now()}-${Math.random().toString(36).substr(2, 9)}`.
`Date.now()` and the random suffix are passed in as parameters. -/
def genSlug (now : Nat) (rand : String) : String :=
  "form-" ++ toString now ++ "-" ++ rand

/-- The `formSchema.pre('save')` hook: assign `publicUrl` only when it is
still unset. -/
def presave (fresh : String) (f : Form) : Form :=
  if slugUnset f.publicUrl then { f with publicUrl := some fresh } else f

/-- The unsaved document built by `POST /api/forms`
(`new Form({title, description, creator, questions, settings})`):
`isActive` defaults to true and `publicUrl` is not set.  Question `order`
fields are assigned positionally (`question.order = i + 1`). -/
def createForm (id title description creator : String) (qs : List Question)
    (st : Settings) : Form :=
  { id := id, title := title, description := description, creator := creator
    questions := qs.mapIdx fun i q => { q with order := i + 1 }
    isActive := true
    publicUrl := none
    settings := st }

/-- A partial `settings` object of a `PUT /api/forms/:id` body, merged into
the stored settings by `{ ...form.settings, ...settings }`. -/
structure SettingsPatch where
  allowMultipleResponses : Option Bool
  requireEmail : Option Bool
  theme : Option String
deriving DecidableEq

/-- `{ ...form.settings, ...settings }`. -/
def mergeSettings (s : Settings) (p : SettingsPatch) : Settings :=
  { allowMultipleResponses := p.allowMultipleResponses.getD s.allowMultipleResponses
    requireEmail := p.requireEmail.getD s.requireEmail
    theme := p.theme.getD s.theme }

/-- The optional body fields of `PUT /api/forms/:id`. -/
structure FormUpdate where
  title : Option String
  description : Option String
  questions : Option (List Question)
  isActive : Option Bool
  settings : Option SettingsPatch
deriving DecidableEq

/-- The field assignments of the update route (every `if (x !== undefined)`
branch plus the question replacement with re-assigned `order`): `publicUrl`
is never among them. -/
def applyUpdate (f : Form) (u : FormUpdate) : Form :=
  { f with
    title := u.title.getD f.title
    description := u.description.getD f.description
    isActive := u.isActive.getD f.isActive
    settings := (u.settings.map (mergeSettings f.settings)).getD f.settings
    questions := (u.questions.map fun qs =>
      qs.mapIdx fun i q => { q with order := i + 1 }).getD f.questions }

/-- The update route's check that every multiple-choice question carries at
least two options. -/
def okQuestion (q : Question) : Bool :=
  !(decide (q.qtype = QType.multipleChoice)) || decide (2 ≤ q.options.length)

/-- `PUT /api/forms/:id`: reject (no save) when a supplied question list has
a multiple-choice question with fewer than two options; otherwise apply the
field updates and save (running the pre-save hook). -/
def updateForm (fresh : String) (f : Form) (u : FormUpdate) : Option Form :=
  match u.questions with
  | some qs =>
    if qs.all okQuestion then some (presave fresh (applyUpdate f u)) else none
  | none => some (presave fresh (applyUpdate f u))

/-- The form document after an update request: a rejected request performs
no save and leaves the stored form unchanged. -/
def afterUpdate (f : Form) (e : String × FormUpdate) : Form :=
  (updateForm e.1 f e.2).getD f

/-! ### Tally lemmas -/

theorem lookupN_bump (t : Tally) (k k' : String) :
    lookupN (bump t k) k' = lookupN t k' + (if k = k' then 1 else 0) := by
  induction t with
  | nil =>
    by_cases h : k = k' <;> simp [bump, lookupN, h]
  | cons p t ih =>
    by_cases hp : p.1 = k
    · have hb : bump (p :: t) k = (p.1, p.2 + 1) :: t := by simp [bump, hp]
      rw [hb]
      by_cases hk : p.1 = k'
      · have hkk : k = k' := hp.symm.trans hk
        simp [lookupN, hk, hkk]
      · have hkk : ¬ k = k' := fun h => hk (hp.trans h)
        simp [lookupN, hk, hkk]
    · have hb : bump (p :: t) k = p :: bump t k := by simp [bump, hp]
      rw [hb]
      by_cases hk : p.1 = k'
      · have hkk : ¬ k = k' := fun h => hp (hk.trans h.symm)
        simp [lookupN, hk, hkk]
      · simp [lookupN, hk, ih]

theorem tallyHasKey_bump (t : Tally) (k k' : String) :
    tallyHasKey (bump t k) k' = (tallyHasKey t k' || k == k') := by
  induction t with
  | nil => simp [bump, tallyHasKey, Bool.or_comm]
  | cons p t ih =>
    by_cases hp : p.1 = k
    · have hb : bump (p :: t) k = (p.1, p.2 + 1) :: t := by simp [bump, hp]
      rw [hb]
      by_cases hk : k = k'
      · simp [tallyHasKey, hp.trans hk, hk]
      · simp [tallyHasKey, hk]
    · have hb : bump (p :: t) k = p :: bump t k := by simp [bump, hp]
      rw [hb]
      simp [tallyHasKey, ih, Bool.or_assoc]

theorem tallySum_bump (t : Tally) (k : String) :
    tallySum (bump t k) = tallySum t + 1 := by
  induction t with
  | nil => simp [bump, tallySum]
  | cons p t ih =>
    by_cases hp : p.1 = k
    · simp [bump, tallySum, hp]; omega
    · simp [bump, tallySum, hp, ih]; omega

/-! ### Fold characterizations of the summary loop -/

theorem tallyFold_fst (q : Question) (rs : List ResponseRecord) :
    ∀ acc : Nat × Tally,
      (rs.foldl (tallyStep q) acc).1 =
        acc.1 + rs.countP (fun r => (hit q r).isSome) := by
  induction rs with
  | nil => intro acc; simp
  | cons r rs ih =>
    intro acc
    rw [List.foldl_cons, ih, List.countP_cons]
    cases h : hit q r <;> simp [tallyStep, h] <;> omega

theorem tallyFold_lookup (q : Question) (hq : q.qtype = QType.multipleChoice)
    (rs : List ResponseRecord) (k : String) :
    ∀ acc : Nat × Tally,
      lookupN (rs.foldl (tallyStep q) acc).2 k =
        lookupN acc.2 k + rs.countP (fun r => decide (hitValue q r = some k)) := by
  induction rs with
  | nil => intro acc; simp
  | cons r rs ih =>
    intro acc
    rw [List.foldl_cons, ih, List.countP_cons]
    cases h : hit q r with
    | none => simp [tallyStep, h, hitValue, hq]
    | some a =>
      by_cases hk : a.answer = k <;>
        simp [tallyStep, h, hq, hitValue, lookupN_bump, hk] <;> omega

theorem tallyFold_text (q : Question) (hq : q.qtype ≠ QType.multipleChoice)
    (rs : List ResponseRecord) :
    ∀ acc : Nat × Tally, (rs.foldl (tallyStep q) acc).2 = acc.2 := by
  induction rs with
  | nil => intro acc; rfl
  | cons r rs ih =>
    intro acc
    rw [List.foldl_cons, ih]
    cases h : hit q r <;> simp [tallyStep, h, hq]

theorem tallyFold_hasKey (q : Question) (hq : q.qtype = QType.multipleChoice)
    (rs : List ResponseRecord) (k : String) :
    ∀ acc : Nat × Tally,
      tallyHasKey (rs.foldl (tallyStep q) acc).2 k =
        (tallyHasKey acc.2 k || rs.any (fun r => decide (hitValue q r = some k))) := by
  induction rs with
  | nil => intro acc; simp
  | cons r rs ih =>
    intro acc
    rw [List.foldl_cons, ih, List.any_cons]
    cases h : hit q r with
    | none => simp [tallyStep, h, hitValue, hq]
    | some a =>
      have hs : (tallyStep q acc r).2 = bump acc.2 a.answer := by
        simp [tallyStep, h, hq]
      have hv : hitValue q r = some a.answer := by simp [hitValue, hq, h]
      rw [hs, tallyHasKey_bump, hv]
      by_cases hk : a.answer = k
      · simp [hk]
      · have hk2 : ¬ k = a.answer := fun h2 => hk h2.symm
        have hb : (a.answer == k) = false := by simp [hk]
        simp [hk, hk2, hb, Bool.or_assoc]

theorem tallyFold_sum (q : Question) (rs : List ResponseRecord) :
    ∀ acc : Nat × Tally,
      tallySum (rs.foldl (tallyStep q) acc).2 ≤
        tallySum acc.2 + rs.countP (fun r => (hit q r).isSome) := by
  induction rs with
  | nil => intro acc; simp
  | cons r rs ih =>
    intro acc
    rw [List.foldl_cons, List.countP_cons]
    refine le_trans (ih _) ?_
    cases h : hit q r with
    | none => simp [tallyStep, h]
    | some a =>
      by_cases hq : q.qtype = QType.multipleChoice <;>
        simp [tallyStep, h, hq, tallySum_bump] <;> omega

/-- Permutations preserve `List.any`. -/
theorem perm_any_eq {α : Type} (p : α → Bool) {l1 l2 : List α} (h : l1.Perm l2) :
    l1.any p = l2.any p := by
  rw [Bool.eq_iff_iff, List.any_eq_true, List.any_eq_true]
  constructor
  · rintro ⟨x, hx, hp⟩; exact ⟨x, h.mem_iff.mp hx, hp⟩
  · rintro ⟨x, hx, hp⟩; exact ⟨x, h.mem_iff.mpr hx, hp⟩

/-! ### Concrete fixtures used by witnesses and counterexamples.
Document ids are 24-character hexadecimal strings, as `isMongoId` demands. -/

/-- A question id. -/
def qidA : String := "aaaaaaaaaaaaaaaaaaaaaaaa"

/-- A second question id. -/
def qidB : String := "bbbbbbbbbbbbbbbbbbbbbbbb"

/-- A question id belonging to no question of the fixture forms. -/
def qidZ : String := "dddddddddddddddddddddddd"

/-- A form id. -/
def formIdX : String := "cccccccccccccccccccccccc"

/-- Schema-default settings: `allowMultipleResponses` false. -/
def baseSettings : Settings :=
  { allowMultipleResponses := false, requireEmail := false, theme := "light" }

/-- A required multiple-choice question with options `["A", "B"]`. -/
def qChoice : Question :=
  { id := qidA, text := "Pick one", qtype := QType.multipleChoice
    options := ["A", "B"], required := true, order := 1 }

/-- A required free-text question. -/
def qTextReq : Question :=
  { id := qidA, text := "How was it?", qtype := QType.text
    options := [], required := true, order := 1 }

/-- An optional multiple-choice question. -/
def qChoiceOpt : Question :=
  { id := qidB, text := "Opt choice", qtype := QType.multipleChoice
    options := ["A", "B"], required := false, order := 2 }

/-- An active form with the single question `qChoice`. -/
def formChoice : Form :=
  { id := formIdX, title := "T", description := "", creator := "u"
    questions := [qChoice], isActive := true
    publicUrl := some "form-1-x", settings := baseSettings }

/-- An active form with the single question `qTextReq`. -/
def formText : Form := { formChoice with questions := [qTextReq] }

/-- `formText` deactivated. -/
def formInactive : Form := { formText with isActive := false }

/-- An active form with a required text question and an optional choice
question. -/
def formTwo : Form := { formChoice with questions := [qTextReq, qChoiceOpt] }

/-- A request template: no email, no name. -/
def baseReq : Request :=
  { formId := formIdX, answers := [], submitterEmail := none
    submitterName := none, ip := "1.2.3.4", userAgent := "ua" }

/-- A request whose `answers` array is empty (fails the body rules). -/
def reqNoAnswers : Request := baseReq

/-- A body-valid single-answer request answering `qidA` with `"hi"`. -/
def reqHi : Request := { baseReq with answers := [{ questionId := qidA, answer := "hi" }] }

/-- A body-valid request with two answers. -/
def reqTwoAnswers : Request :=
  { baseReq with answers := [{ questionId := qidA, answer := "hi" },
                             { questionId := qidB, answer := "ho" }] }

/-! ## C5 — inactive form -/

/-- C5 counterexample: with an inactive form, the payload whose `answers`
array is empty is rejected by the express-validator body rules
(`isArray({ min: 1 })`) with the generic 400 before the form is ever looked
up, so the result is not `FormUnavailable`.  The claim's "for every answer
payload whatsoever ... (and no other rejection kind), this being the first
check performed" therefore fails. -/
theorem submitResponse_inactive_cex :
    formInactive.isActive = false ∧
    submitResponse [formInactive] [] reqNoAnswers = SubmitResult.validationErrors ∧
    SubmitResult.validationErrors ≠ SubmitResult.formUnavailable := by
  decide

/-- C5 (amended): for every request that passes the body rules, if the form
found by id is inactive the handler returns `FormUnavailable`, whatever the
answers are — the form-active check is the first performed after the body
rules. -/
theorem submitResponse_inactive (forms : List Form) (prior : List ResponseRecord)
    (req : Request) (form : Form)
    (hbody : bodyValid req = true)
    (hfind : forms.find? (fun f => f.id == req.formId) = some form)
    (hinactive : form.isActive = false) :
    submitResponse forms prior req = SubmitResult.formUnavailable := by
  simp [submitResponse, hbody, hfind, hinactive]

/-- Witness for `submitResponse_inactive` at a concrete body-valid request. -/
theorem submitResponse_inactive_witness :
    bodyValid reqHi = true ∧
    submitResponse [formInactive] [] reqHi = SubmitResult.formUnavailable :=
  ⟨by decide,
   submitResponse_inactive [formInactive] [] reqHi formInactive
     (by decide) (by decide) (by decide)⟩

/-! ## C6 — answer-count mismatch -/

/-- C6 counterexample: for the active one-question form, the empty answer
sequence has mismatched length but is rejected by the body rules with the
generic 400, not with `AnswerCountMismatch`; so "for every answer sequence
whose length differs" fails. -/
theorem submitResponse_count_cex :
    formText.isActive = true ∧
    reqNoAnswers.answers.length ≠ formText.questions.length ∧
    submitResponse [formText] [] reqNoAnswers = SubmitResult.validationErrors ∧
    SubmitResult.validationErrors ≠ SubmitResult.answerCountMismatch := by
  decide

/-- C6 (amended): for every body-valid request against an active form, an
answer sequence whose length differs from the question count is rejected
with `AnswerCountMismatch`; no hypothesis about the required-question or
option checks is needed, so the count check precedes them (first failure
wins). -/
theorem submitResponse_count (forms : List Form) (prior : List ResponseRecord)
    (req : Request) (form : Form)
    (hbody : bodyValid req = true)
    (hfind : forms.find? (fun f => f.id == req.formId) = some form)
    (hactive : form.isActive = true)
    (hlen : req.answers.length ≠ form.questions.length) :
    submitResponse forms prior req = SubmitResult.answerCountMismatch := by
  simp [submitResponse, hbody, hfind, hactive, hlen]

/-- Witness for `submitResponse_count`: two answers against the one-question
form. -/
theorem submitResponse_count_witness :
    bodyValid reqTwoAnswers = true ∧
    reqTwoAnswers.answers.length ≠ formText.questions.length ∧
    submitResponse [formText] [] reqTwoAnswers = SubmitResult.answerCountMismatch :=
  ⟨by decide, by decide,
   submitResponse_count [formText] [] reqTwoAnswers formText
     (by decide) (by decide) (by decide) (by decide)⟩

/-! ## C10 — per-question counts are bounded by the response count -/

/-- C10: for every question, `totalAnswers` equals the number of responses
whose answer list contains at least one entry with a matching `questionId`
(the loop counts the first match of each response via `find`, so a response
carrying several answers with the same `questionId` contributes once), hence
`totalAnswers` never exceeds `totalResponses`; and the tally counts of a
question sum to at most `totalResponses`. -/
theorem questionSummary_bounded (f : Form) (rs : List ResponseRecord) (q : Question) :
    (questionSummary q rs).totalAnswers = rs.countP (fun r => (hit q r).isSome) ∧
    (questionSummary q rs).totalAnswers ≤ (summarize f rs).totalResponses ∧
    tallySum (questionSummary q rs).answers ≤ (summarize f rs).totalResponses := by
  have hfst : (questionSummary q rs).totalAnswers = rs.countP (fun r => (hit q r).isSome) := by
    simpa [questionSummary] using tallyFold_fst q rs (0, [])
  refine ⟨hfst, ?_, ?_⟩
  · rw [hfst]
    simpa [summarize] using List.countP_le_length (fun r => (hit q r).isSome) (l := rs)
  · have hsum := tallyFold_sum q rs (0, [])
    simp only [questionSummary, summarize]
    calc tallySum (rs.foldl (tallyStep q) (0, [])).2
        ≤ tallySum [] + rs.countP (fun r => (hit q r).isSome) := hsum
      _ ≤ rs.length := by
          simpa [tallySum] using List.countP_le_length (fun r => (hit q r).isSome) (l := rs)

/-! ## C8 — the public slug is assigned once and never changes -/

/-- The generated slug starts with `form-` and is in particular non-empty. -/
theorem genSlug_ne_empty (now : Nat) (rand : String) : genSlug now rand ≠ "" := by
  intro h
  have hf : ("form-" : String).length = 5 := by decide
  have he : ("" : String).length = 0 := by decide
  have h5 : 5 ≤ (genSlug now rand).length := by
    simp only [genSlug, String.length_append, hf]
    omega
  rw [h, he] at h5
  omega

/-- A single accepted or rejected update request leaves an already-assigned
non-empty `publicUrl` unchanged. -/
theorem afterUpdate_publicUrl (g : Form) (e : String × FormUpdate) (p : String)
    (hg : g.publicUrl = some p) (hp : p ≠ "") :
    (afterUpdate g e).publicUrl = some p := by
  have happ : (applyUpdate g e.2).publicUrl = some p := hg
  have hpre : ∀ fresh, (presave fresh (applyUpdate g e.2)).publicUrl = some p := by
    intro fresh
    have hb : slugUnset (some p) = false := by simpa [slugUnset] using hp
    simp [presave, happ, hb]
  rcases e with ⟨fresh, u⟩
  rcases hu : u.questions with - | qs
  · simpa [afterUpdate, updateForm, hu] using hpre fresh
  · by_cases hok : qs.all okQuestion
    · simpa [afterUpdate, updateForm, hu, hok] using hpre fresh
    · simpa [afterUpdate, updateForm, hu, hok] using hg

/-- C8: a form created without a `publicUrl` gets one at its first save
(`pre('save')` assigns `form-${now}-${rand}` only when unset), and any
sequence of subsequent update-and-save requests — each running the hook
again with its own fresh slug candidate — leaves it unchanged: the slug is
assigned exactly once. -/
theorem publicUrl_assigned_once (f : Form) (now : Nat) (rand : String)
    (edits : List (String × FormUpdate))
    (h0 : f.publicUrl = none) :
    (presave (genSlug now rand) f).publicUrl = some (genSlug now rand) ∧
    (edits.foldl afterUpdate (presave (genSlug now rand) f)).publicUrl =
      some (genSlug now rand) := by
  have h1 : (presave (genSlug now rand) f).publicUrl = some (genSlug now rand) := by
    simp [presave, slugUnset, h0]
  refine ⟨h1, ?_⟩
  have : ∀ (es : List (String × FormUpdate)) (g : Form),
      g.publicUrl = some (genSlug now rand) →
      (es.foldl afterUpdate g).publicUrl = some (genSlug now rand) := by
    intro es
    induction es with
    | nil => intro g hg; simpa using hg
    | cons e es ih =>
      intro g hg
      exact ih _ (afterUpdate_publicUrl g e _ hg (genSlug_ne_empty now rand))
  exact this edits _ h1

/-- A fixture update request: deactivate the form and rename it. -/
def updDeactivate : FormUpdate :=
  { title := some "T2", description := none, questions := none
    isActive := some false, settings := none }

/-- Witness for `publicUrl_assigned_once`: a freshly created form, saved and
then edited twice, keeps its first slug. -/
theorem publicUrl_assigned_once_witness :
    (createForm formIdX "T" "" "u" [qTextReq] baseSettings).publicUrl = none ∧
    ((List.foldl afterUpdate
        (presave (genSlug 7 "zzz") (createForm formIdX "T" "" "u" [qTextReq] baseSettings))
        [("form-8-aaa", updDeactivate), ("form-9-bbb", updDeactivate)]).publicUrl =
      some (genSlug 7 "zzz")) :=
  ⟨by decide,
   (publicUrl_assigned_once (createForm formIdX "T" "" "u" [qTextReq] baseSettings)
     7 "zzz" [("form-8-aaa", updDeactivate), ("form-9-bbb", updDeactivate)]
     (by decide)).2⟩

/-! ## Bridging lemmas for the submission checks -/

/-- The required-question loop finds nothing iff every required question has
a submitted answer with a matching id. -/
theorem findUnansweredRequired_none_iff (form : Form) (answers : List RawAnswer) :
    findUnansweredRequired form answers = none ↔
      ∀ q ∈ form.questions, q.required = true → ∃ a ∈ answers, a.questionId = q.id := by
  rw [findUnansweredRequired, List.find?_eq_none]
  constructor
  · intro h q hq hr
    by_contra hno
    push_neg at hno
    have hpred : (q.required && (answers.find? fun a => a.questionId == q.id).isNone) = true := by
      rw [hr, Bool.true_and, Option.isNone_iff_eq_none, List.find?_eq_none]
      intro a ha
      simpa [beq_iff_eq] using hno a ha
    exact h q hq hpred
  · intro h q hq hb
    rw [Bool.and_eq_true, Option.isNone_iff_eq_none, List.find?_eq_none] at hb
    rcases h q hq hb.1 with ⟨a, ha, heq⟩
    exact hb.2 a ha (by simp [beq_iff_eq, heq])

/-- What the required-question loop's result satisfies. -/
theorem findUnansweredRequired_spec (form : Form) (answers : List RawAnswer)
    (q : Question) (h : findUnansweredRequired form answers = some q) :
    q ∈ form.questions ∧ q.required = true ∧ ∀ a ∈ answers, a.questionId ≠ q.id := by
  have hp := List.find?_some h
  rw [Bool.and_eq_true, Option.isNone_iff_eq_none, List.find?_eq_none] at hp
  exact ⟨List.mem_of_find?_eq_some h, hp.1,
    fun a ha heq => hp.2 a ha (by simp [beq_iff_eq, heq])⟩

/-! ## C2 — required questions -/

/-- A request answering the required question of `formText` with a single
space. -/
def reqWS : Request := { baseReq with answers := [{ questionId := qidA, answer := " " }] }

/-- The stored snapshot of `reqWS`'s answer. -/
def nsWS : List StoredAnswer :=
  [{ questionId := qidA, questionText := "How was it?", questionType := QType.text
     answer := " " }]

/-- C2 counterexample: the required question of `formText` answered with a
value that is whitespace-only (empty after trimming) is accepted — the
required-question loop only tests for the presence of a matching answer,
and `notEmpty` does not reject whitespace — so the claim's "empty or
whitespace-only after trimming" case does not produce
`RequiredQuestionUnanswered`. -/
theorem required_whitespace_cex :
    qTextReq.required = true ∧
    (" ").data.all Char.isWhitespace = true ∧
    submitResponse [formText] [] reqWS = SubmitResult.accepted (mkRecord reqWS nsWS) ∧
    submitResponse [formText] [] reqWS ≠ SubmitResult.requiredUnanswered "How was it?" := by
  decide

/-- C2 (amended): for a body-valid request against an active form with
matching answer count, `RequiredQuestionUnanswered` is produced exactly for
a required question with no answer carrying its id (the route reports the
question's text); when every required question merely has a matching
answer — whatever its value, including whitespace — this rejection cannot
occur.  (An entirely empty value is rejected earlier by the body rules'
generic 400 without identifying a question.) -/
theorem required_unanswered_amended (forms : List Form) (prior : List ResponseRecord)
    (req : Request) (form : Form)
    (hbody : bodyValid req = true)
    (hfind : forms.find? (fun f => f.id == req.formId) = some form)
    (hactive : form.isActive = true)
    (hcount : req.answers.length = form.questions.length) :
    ((∃ q ∈ form.questions, q.required = true ∧ ∀ a ∈ req.answers, a.questionId ≠ q.id) →
      ∃ q ∈ form.questions, q.required = true ∧ (∀ a ∈ req.answers, a.questionId ≠ q.id) ∧
        submitResponse forms prior req = SubmitResult.requiredUnanswered q.text) ∧
    ((∀ q ∈ form.questions, q.required = true → ∃ a ∈ req.answers, a.questionId = q.id) →
      ∀ s, submitResponse forms prior req ≠ SubmitResult.requiredUnanswered s) := by
  constructor
  · intro hex
    cases hfu : findUnansweredRequired form req.answers with
    | none =>
      exfalso
      rcases hex with ⟨q, hq, hr, hmiss⟩
      rcases (findUnansweredRequired_none_iff form req.answers).mp hfu q hq hr with ⟨a, ha, heq⟩
      exact hmiss a ha heq
    | some q0 =>
      rcases findUnansweredRequired_spec form req.answers q0 hfu with ⟨hmem, hr, hmiss⟩
      exact ⟨q0, hmem, hr, hmiss,
        by simp [submitResponse, hbody, hfind, hactive, hcount, hfu]⟩
  · intro hall s
    have hnone : findUnansweredRequired form req.answers = none :=
      (findUnansweredRequired_none_iff form req.answers).mpr hall
    cases hio : findInvalidOption form req.answers with
    | some q2 => simp [submitResponse, hbody, hfind, hactive, hcount, hnone, hio]
    | none =>
      by_cases hdup : form.settings.allowMultipleResponses = false ∧
          ∃ r ∈ prior, dupQuery req r = true
      · simp [submitResponse, hbody, hfind, hactive, hcount, hnone, hio, hdup]
      · cases hn : normalizeAnswers form req.answers with
        | none => simp [submitResponse, hbody, hfind, hactive, hcount, hnone, hio, hdup, hn]
        | some ns => simp [submitResponse, hbody, hfind, hactive, hcount, hnone, hio, hdup, hn]

/-- A request answering a question id that is not the required one. -/
def reqWrongId : Request :=
  { baseReq with answers := [{ questionId := qidB, answer := "x" }] }

/-- Witness for `required_unanswered_amended`: leaving the required question
of `formText` unanswered yields `RequiredQuestionUnanswered` with its text. -/
theorem required_unanswered_amended_witness :
    submitResponse [formText] [] reqWrongId =
      SubmitResult.requiredUnanswered "How was it?" := by
  have h := (required_unanswered_amended [formText] [] reqWrongId formText
    (by decide) (by decide) (by decide) (by decide)).1 (by decide)
  rcases h with ⟨q, hmem, -, -, heq⟩
  have hqs : formText.questions = [qTextReq] := rfl
  rw [hqs] at hmem
  have hq : q = qTextReq := by simpa using hmem
  rw [hq] at heq
  exact heq

/-! ## C7 — multiple-choice option membership -/

/-- What the per-answer predicate of the option-validation loop means. -/
theorem badAnswer_iff (form : Form) (a : RawAnswer) :
    badAnswer form a = true ↔
      ∃ q, (form.questions.find? fun q2 => q2.id == a.questionId) = some q ∧
        q.qtype = QType.multipleChoice ∧ a.answer ∉ q.options := by
  cases h : form.questions.find? fun q2 => q2.id == a.questionId with
  | none => simp [badAnswer, h]
  | some q => simp [badAnswer, h]

/-- C7: past the earlier checks, an answer whose matching question (the
first form question with its id) is multiple-choice and whose value is not
among that question's options (exact string membership) is rejected with
`InvalidOption` naming the question; when every such answer's value is a
listed option, `InvalidOption` cannot be returned. -/
theorem invalid_option_check (forms : List Form) (prior : List ResponseRecord)
    (req : Request) (form : Form)
    (hbody : bodyValid req = true)
    (hfind : forms.find? (fun f => f.id == req.formId) = some form)
    (hactive : form.isActive = true)
    (hcount : req.answers.length = form.questions.length)
    (hreq : findUnansweredRequired form req.answers = none) :
    ((∃ a ∈ req.answers, ∃ q ∈ form.questions,
        (form.questions.find? fun q2 => q2.id == a.questionId) = some q ∧
        q.qtype = QType.multipleChoice ∧ a.answer ∉ q.options) →
      ∃ q ∈ form.questions, q.qtype = QType.multipleChoice ∧
        submitResponse forms prior req = SubmitResult.invalidOption q.text) ∧
    ((∀ a ∈ req.answers, ∀ q ∈ form.questions,
        (form.questions.find? fun q2 => q2.id == a.questionId) = some q →
        q.qtype = QType.multipleChoice → a.answer ∈ q.options) →
      ∀ s, submitResponse forms prior req ≠ SubmitResult.invalidOption s) := by
  constructor
  · intro hex
    have hsome : (req.answers.find? (badAnswer form)).isSome = true := by
      rw [List.find?_isSome]
      rcases hex with ⟨a, ha, q, hqmem, hfq, hmc, hnm⟩
      exact ⟨a, ha, (badAnswer_iff form a).mpr ⟨q, hfq, hmc, hnm⟩⟩
    rcases Option.isSome_iff_exists.mp hsome with ⟨a1, ha1⟩
    rcases (badAnswer_iff form a1).mp (List.find?_some ha1) with ⟨q, hfq, hmc, hnm⟩
    have hio : findInvalidOption form req.answers = some q := by
      simp [findInvalidOption, ha1, hfq]
    exact ⟨q, List.mem_of_find?_eq_some hfq, hmc,
      by simp [submitResponse, hbody, hfind, hactive, hcount, hreq, hio]⟩
  · intro hall s
    have hnone : req.answers.find? (badAnswer form) = none := by
      rw [List.find?_eq_none]
      intro a ha hb
      rcases (badAnswer_iff form a).mp hb with ⟨q, hfq, hmc, hnm⟩
      exact hnm (hall a ha q (List.mem_of_find?_eq_some hfq) hfq hmc)
    have hio : findInvalidOption form req.answers = none := by
      simp [findInvalidOption, hnone]
    by_cases hdup : form.settings.allowMultipleResponses = false ∧
        ∃ r ∈ prior, dupQuery req r = true
    · simp [submitResponse, hbody, hfind, hactive, hcount, hreq, hio, hdup]
    · cases hn : normalizeAnswers form req.answers with
      | none => simp [submitResponse, hbody, hfind, hactive, hcount, hreq, hio, hdup, hn]
      | some ns => simp [submitResponse, hbody, hfind, hactive, hcount, hreq, hio, hdup, hn]

/-- A request answering `qChoice` with `"C"`, which is not an option. -/
def reqC : Request := { baseReq with answers := [{ questionId := qidA, answer := "C" }] }

/-- A request answering `qChoice` with the listed option `"A"`. -/
def reqA : Request := { baseReq with answers := [{ questionId := qidA, answer := "A" }] }

/-- Witness for `invalid_option_check`, the spec's scenario: options
`["A", "B"]`, answer `"C"` → `InvalidOption`; answer `"A"` → not
`InvalidOption`. -/
theorem invalid_option_check_witness :
    submitResponse [formChoice] [] reqC = SubmitResult.invalidOption "Pick one" ∧
    submitResponse [formChoice] [] reqA ≠ SubmitResult.invalidOption "Pick one" := by
  constructor
  · have h := (invalid_option_check [formChoice] [] reqC formChoice
      (by decide) (by decide) (by decide) (by decide) (by decide)).1 (by decide)
    rcases h with ⟨q, hmem, -, heq⟩
    have hqs : formChoice.questions = [qChoice] := rfl
    rw [hqs] at hmem
    have hq : q = qChoice := by simpa using hmem
    rw [hq] at heq
    exact heq
  · exact (invalid_option_check [formChoice] [] reqA formChoice
      (by decide) (by decide) (by decide) (by decide) (by decide)).2 (by decide) "Pick one"

/-! ## C1 — duplicate-submission check -/

/-- C1: with `allowMultipleResponses` false and all earlier checks passed,
the handler queries the prior responses of this form by the
`submitterEmail` field, using the submitted email as key when one (non-empty)
is provided and otherwise the requester's origin address; a matching prior
record yields `DuplicateSubmission`, and with no matching record (in
particular under a different email) the submission is accepted and saved. -/
theorem duplicate_submission_check (forms : List Form) (prior : List ResponseRecord)
    (req : Request) (form : Form) (ns : List StoredAnswer)
    (hbody : bodyValid req = true)
    (hfind : forms.find? (fun f => f.id == req.formId) = some form)
    (hactive : form.isActive = true)
    (hcount : req.answers.length = form.questions.length)
    (hreq : findUnansweredRequired form req.answers = none)
    (hopt : findInvalidOption form req.answers = none)
    (hmulti : form.settings.allowMultipleResponses = false)
    (hnorm : normalizeAnswers form req.answers = some ns) :
    (∀ e, req.submitterEmail = some e → e ≠ "" → emailKey req = e) ∧
    (req.submitterEmail = none → emailKey req = req.ip) ∧
    ((∃ r ∈ prior, r.form = req.formId ∧ r.submitterEmail = some (emailKey req)) →
      submitResponse forms prior req = SubmitResult.duplicateSubmission) ∧
    ((∀ r ∈ prior, ¬(r.form = req.formId ∧ r.submitterEmail = some (emailKey req))) →
      submitResponse forms prior req = SubmitResult.accepted (mkRecord req ns)) := by
  refine ⟨?_, ?_, ?_, ?_⟩
  · intro e he hne
    simp [emailKey, he, hne]
  · intro he
    simp [emailKey, he]
  · intro hex
    have hex2 : ∃ r ∈ prior, dupQuery req r = true := by
      rcases hex with ⟨r, hr, h1, h2⟩
      exact ⟨r, hr, by simp [dupQuery, h1, h2]⟩
    simp [submitResponse, hbody, hfind, hactive, hcount, hreq, hopt, hmulti, hex2]
  · intro hall
    have hno : ¬ ∃ r ∈ prior, dupQuery req r = true := by
      rintro ⟨r, hr, hb⟩
      exact hall r hr (by simpa [dupQuery] using hb)
    simp [submitResponse, hbody, hfind, hactive, hcount, hreq, hopt, hmulti, hno, hnorm]

/-- `reqA` submitted under the email `a@x.com`. -/
def reqEmailA : Request := { reqA with submitterEmail := some "a@x.com" }

/-- `reqA` submitted under the email `b@x.com`. -/
def reqEmailB : Request := { reqA with submitterEmail := some "b@x.com" }

/-- A prior stored response to `formChoice` from `a@x.com`. -/
def recPriorA : ResponseRecord :=
  { form := formIdX, answers := [], submitterEmail := some "a@x.com"
    submitterName := none, ipAddress := "9.9.9.9", userAgent := "ua" }

/-- The stored snapshot of `reqA`'s answer. -/
def nsA : List StoredAnswer :=
  [{ questionId := qidA, questionText := "Pick one"
     questionType := QType.multipleChoice, answer := "A" }]

/-- Witness for `duplicate_submission_check`, the spec's scenario:
`a@x.com` has a prior record, so resubmitting as `a@x.com` is rejected as a
duplicate while resubmitting as `b@x.com` is accepted. -/
theorem duplicate_submission_check_witness :
    submitResponse [formChoice] [recPriorA] reqEmailA = SubmitResult.duplicateSubmission ∧
    submitResponse [formChoice] [recPriorA] reqEmailB =
      SubmitResult.accepted (mkRecord reqEmailB nsA) := by
  constructor
  · exact (duplicate_submission_check [formChoice] [recPriorA] reqEmailA formChoice nsA
      (by decide) (by decide) (by decide) (by decide) (by decide) (by decide)
      (by decide) (by decide)).2.2.1 (by decide)
  · exact (duplicate_submission_check [formChoice] [recPriorA] reqEmailB formChoice nsA
      (by decide) (by decide) (by decide) (by decide) (by decide) (by decide)
      (by decide) (by decide)).2.2.2 (by decide)

/-! ## C9 — answers for unknown question ids crash the accept path -/

/-- Normalization produces no value as soon as one answer's `questionId`
matches no form question (the route's `map` throws on `question.text`). -/
theorem normalizeAnswers_none (form : Form) (answers : List RawAnswer)
    (h : ∃ a ∈ answers, (form.questions.find? fun q => q.id == a.questionId) = none) :
    normalizeAnswers form answers = none := by
  induction answers with
  | nil =>
    rcases h with ⟨a, ha, -⟩
    exact absurd ha (List.not_mem_nil a)
  | cons a rest ih =>
    rcases h with ⟨a0, ha0, hf⟩
    rcases List.mem_cons.mp ha0 with h1 | h2
    · subst h1
      simp [normalizeAnswers, hf]
    · cases hfa : form.questions.find? fun q => q.id == a.questionId with
      | none => simp [normalizeAnswers, hfa]
      | some q => simp [normalizeAnswers, hfa, ih ⟨a0, h2, hf⟩]

/-- C9: when every check passes (right length, required questions answered,
no invalid option, no duplicate) but some answer's `questionId` matches no
question of the form, the normalization step fails and the handler lands in
the `catch` with the internal `serverError` — no taxonomy rejection and no
saved record. -/
theorem orphan_answer_server_error (forms : List Form) (prior : List ResponseRecord)
    (req : Request) (form : Form)
    (hbody : bodyValid req = true)
    (hfind : forms.find? (fun f => f.id == req.formId) = some form)
    (hactive : form.isActive = true)
    (hcount : req.answers.length = form.questions.length)
    (hreq : findUnansweredRequired form req.answers = none)
    (hopt : findInvalidOption form req.answers = none)
    (hdup : ¬(form.settings.allowMultipleResponses = false ∧
      ∃ r ∈ prior, dupQuery req r = true))
    (horphan : ∃ a ∈ req.answers, ∀ q ∈ form.questions, q.id ≠ a.questionId) :
    normalizeAnswers form req.answers = none ∧
    submitResponse forms prior req = SubmitResult.serverError := by
  have hnorm : normalizeAnswers form req.answers = none := by
    apply normalizeAnswers_none
    rcases horphan with ⟨a, ha, hq⟩
    refine ⟨a, ha, ?_⟩
    rw [List.find?_eq_none]
    intro q hqmem
    simpa [beq_iff_eq] using hq q hqmem
  exact ⟨hnorm,
    by simp [submitResponse, hbody, hfind, hactive, hcount, hreq, hopt, hdup, hnorm]⟩

/-- A request answering `formTwo`'s required question plus a question id
belonging to no question. -/
def reqOrphan : Request :=
  { baseReq with answers := [{ questionId := qidA, answer := "hi" },
                             { questionId := qidZ, answer := "zz" }] }

/-- Witness for `orphan_answer_server_error` at `formTwo` and `reqOrphan`. -/
theorem orphan_answer_server_error_witness :
    submitResponse [formTwo] [] reqOrphan = SubmitResult.serverError :=
  (orphan_answer_server_error [formTwo] [] reqOrphan formTwo
    (by decide) (by decide) (by decide) (by decide) (by decide) (by decide)
    (by decide) (by decide)).2

/-! ## C3 — summary determinism and response order -/

/-- Projection of `questionSummary`. -/
theorem questionSummary_totalAnswers (q : Question) (rs : List ResponseRecord) :
    (questionSummary q rs).totalAnswers = (rs.foldl (tallyStep q) (0, [])).1 := rfl

/-- Projection of `questionSummary`. -/
theorem questionSummary_answers (q : Question) (rs : List ResponseRecord) :
    (questionSummary q rs).answers = (rs.foldl (tallyStep q) (0, [])).2 := rfl

/-- A stored response answering `qChoice` with `"A"`. -/
def respA : ResponseRecord :=
  { form := formIdX
    answers := [{ questionId := qidA, questionText := "Pick one"
                  questionType := QType.multipleChoice, answer := "A" }]
    submitterEmail := none, submitterName := none, ipAddress := "i", userAgent := "u" }

/-- A stored response answering `qChoice` with `"B"`. -/
def respB : ResponseRecord :=
  { respA with
    answers := [{ questionId := qidA, questionText := "Pick one"
                  questionType := QType.multipleChoice, answer := "B" }] }

/-- C3 counterexample: the tally object keeps its keys in insertion order
(first appearance among the responses), so permuting the two responses
produces `[("A",1),("B",1)]` versus `[("B",1),("A",1)]` — the summaries, and
hence their serialized bytes, differ under this permutation of the response
sequence. -/
theorem summarize_perm_cex :
    ([respA, respB]).Perm [respB, respA] ∧
    summarize formChoice [respA, respB] ≠ summarize formChoice [respB, respA] :=
  ⟨List.Perm.swap respB respA [], by decide⟩

/-- C3 (amended): `summarize` is a pure function, so identical inputs give
identical output; and under any permutation of the responses the summary's
content is unchanged — `totalResponses`, the number of question entries,
each question's `totalAnswers`, and the tally read as a key-to-count mapping
(value and key-presence at every key).  Only the insertion order of tally
keys, which follows first appearance in the response sequence, can differ,
so byte-for-byte equality of the serialized output does not hold in
general. -/
theorem summarize_perm_amended (f : Form) (rs rs2 : List ResponseRecord)
    (q : Question) (k : String) (h : rs.Perm rs2) :
    (summarize f rs).totalResponses = (summarize f rs2).totalResponses ∧
    (summarize f rs).questions.length = (summarize f rs2).questions.length ∧
    (questionSummary q rs).totalAnswers = (questionSummary q rs2).totalAnswers ∧
    lookupN (questionSummary q rs).answers k = lookupN (questionSummary q rs2).answers k ∧
    tallyHasKey (questionSummary q rs).answers k =
      tallyHasKey (questionSummary q rs2).answers k := by
  refine ⟨?_, ?_, ?_, ?_, ?_⟩
  · simpa [summarize] using h.length_eq
  · simp [summarize]
  · rw [questionSummary_totalAnswers, questionSummary_totalAnswers,
      tallyFold_fst, tallyFold_fst, h.countP_eq]
  · by_cases hq : q.qtype = QType.multipleChoice
    · rw [questionSummary_answers, questionSummary_answers,
        tallyFold_lookup q hq rs k, tallyFold_lookup q hq rs2 k, h.countP_eq]
    · rw [questionSummary_answers, questionSummary_answers,
        tallyFold_text q hq rs, tallyFold_text q hq rs2]
  · by_cases hq : q.qtype = QType.multipleChoice
    · rw [questionSummary_answers, questionSummary_answers,
        tallyFold_hasKey q hq rs k, tallyFold_hasKey q hq rs2 k,
        perm_any_eq _ h]
    · rw [questionSummary_answers, questionSummary_answers,
        tallyFold_text q hq rs, tallyFold_text q hq rs2]

/-- Witness for `summarize_perm_amended` under the concrete swap of
`respA`/`respB`. -/
theorem summarize_perm_amended_witness :
    (summarize formChoice [respA, respB]).totalResponses =
      (summarize formChoice [respB, respA]).totalResponses ∧
    lookupN (questionSummary qChoice [respA, respB]).answers "A" =
      lookupN (questionSummary qChoice [respB, respA]).answers "A" :=
  ⟨(summarize_perm_amended formChoice [respA, respB] [respB, respA] qChoice "A"
      (List.Perm.swap respB respA [])).1,
   (summarize_perm_amended formChoice [respA, respB] [respB, respA] qChoice "A"
      (List.Perm.swap respB respA [])).2.2.2.1⟩

/-! ## C4 — summary contents -/

/-- C4: the summary counts all responses in `totalResponses`, carries one
entry per form question in form order, counts in `totalAnswers` the
responses having an answer with a matching `questionId`, produces no
per-value tally for free-text questions, and for multiple-choice questions
tallies exactly the values that appeared (first matching answer of each
response), each mapped to its occurrence count — values with zero
occurrences have no key. -/
theorem summarize_output_spec (f : Form) (rs : List ResponseRecord)
    (q : Question) (k : String) :
    (summarize f rs).totalResponses = rs.length ∧
    (summarize f rs).questions = f.questions.map (fun q2 => questionSummary q2 rs) ∧
    (questionSummary q rs).totalAnswers =
      rs.countP (fun r => decide (∃ a ∈ r.answers, a.questionId = q.id)) ∧
    (q.qtype = QType.text → (questionSummary q rs).answers = []) ∧
    lookupN (questionSummary q rs).answers k =
      rs.countP (fun r => decide (hitValue q r = some k)) ∧
    (tallyHasKey (questionSummary q rs).answers k = true ↔
      ∃ r ∈ rs, hitValue q r = some k) := by
  refine ⟨rfl, rfl, ?_, ?_, ?_, ?_⟩
  · rw [questionSummary_totalAnswers, tallyFold_fst]
    simp only [Nat.zero_add]
    apply List.countP_congr
    intro r _
    simp [hit, List.find?_isSome, beq_iff_eq]
  · intro ht
    have hq : q.qtype ≠ QType.multipleChoice := by simp [ht]
    rw [questionSummary_answers, tallyFold_text q hq rs]
  · by_cases hq : q.qtype = QType.multipleChoice
    · rw [questionSummary_answers, tallyFold_lookup q hq rs k]
      simp [lookupN]
    · rw [questionSummary_answers, tallyFold_text q hq rs]
      have : rs.countP (fun r => decide (hitValue q r = some k)) = 0 := by
        rw [List.countP_eq_zero]
        intro r _
        simp [hitValue, hq]
      simp [lookupN, this]
  · by_cases hq : q.qtype = QType.multipleChoice
    · rw [questionSummary_answers, tallyFold_hasKey q hq rs k]
      simp [tallyHasKey, List.any_eq_true]
    · rw [questionSummary_answers, tallyFold_text q hq rs]
      simp [tallyHasKey, hitValue, hq]

/-- Witness for `summarize_output_spec` at concrete inputs, including the
free-text case where no tally is produced. -/
theorem summarize_output_spec_witness :
    (summarize formChoice [respA, respB]).totalResponses = [respA, respB].length ∧
    lookupN (questionSummary qChoice [respA, respB]).answers "A" =
      List.countP (fun r => decide (hitValue qChoice r = some "A")) [respA, respB] ∧
    (questionSummary qTextReq [respA]).answers = [] :=
  ⟨(summarize_output_spec formChoice [respA, respB] qChoice "A").1,
   (summarize_output_spec formChoice [respA, respB] qChoice "A").2.2.2.2.1,
   (summarize_output_spec formText [respA] qTextReq "A").2.2.2.1 rfl⟩

end Feedback
